import Mathlib

/-!
Shallow embedding of the nntrainer tensor front-end (`tensor_v2.cpp`) and the
fully connected layer (`fc_layer.cpp`), with theorems checking the
natural-language specification against the code.

Machine `unsigned int` subtraction is modelled as arithmetic modulo 2^32;
tensor element values are modelled exactly (as integers), since all claims
under study are about sequencing, aliasing, shape and dispatch rather than
floating-point rounding.
-/

/-- Error taxonomy from the spec (section 7); each constructor stands for one
family of exceptions thrown by the C++ code. -/
inductive NNErr where
  | InvalidArgument
  | IndexOutOfRange
  | UnsupportedDataType
  | ConfigurationError
  deriving DecidableEq, Repr

/-- Tensor memory formats (`Tformat` in the source). -/
inductive Tformat where
  | NCHW
  | NHWC
  deriving DecidableEq, Repr

/-- Tensor element data types (`Tdatatype` in the source). -/
inductive Tdatatype where
  | FP32
  | FP16
  | QINT8
  | QINT4
  deriving DecidableEq, Repr

/-- Rank-4 shape descriptor: batch, channel, height, width
(`TensorDim` in the source, extents only). -/
structure TensorDim where
  b : ℕ
  c : ℕ
  h : ℕ
  w : ℕ
  deriving DecidableEq, Repr

deriving instance DecidableEq for Except

/-- `TensorV2::checkContinuous` uses this permuted order for the channel-last
format (`continuous_order_nhwc` in the source). -/
def continuous_order_nhwc : List ℕ := [0, 3, 1, 2]

/-- Embedding of `TensorV2::checkContinuous(np1, np2)`. The C++ takes
`unsigned int` arguments, so the `np1 < 0` half of the source's range test is
vacuous; arguments above 3 throw (`std::invalid_argument` with the
"range of 0 to 3" message, the spec's `IndexOutOfRange` family). -/
def checkContinuous (fmt : Tformat) (np1 np2 : ℕ) : Except NNErr Bool :=
  if np1 > 3 ∨ np2 > 3 then
    .error .IndexOutOfRange
  else if fmt = Tformat.NCHW then
    if np1 + 1 = np2 then .ok true else .ok false
  else
    if continuous_order_nhwc.getD np2 0 = continuous_order_nhwc.getD np1 0 + 1
    then .ok true else .ok false

example : checkContinuous .NCHW 0 1 = .ok true := by decide
example : checkContinuous .NHWC 0 2 = .ok true := by decide
example : checkContinuous .NHWC 1 2 = .ok false := by decide
example : checkContinuous .NHWC 0 3 = .ok false := by decide
example : checkContinuous .NCHW 4 0 = .error .IndexOutOfRange := by decide

/-- Value-level model of a `TensorV2`: the shape/format/type metadata held by
the backing `TensorBase`, plus the element values of the single backing
implementation (`FloatTensor` or `HalfTensor`), modelled exactly. -/
structure TensorV2 where
  dim : TensorDim
  fmt : Tformat
  dtype : Tdatatype
  data : List ℤ
  deriving DecidableEq, Repr

/-- Modelled from the spec: `TensorBase::operator==` (the `*itensor ==
*rhs.itensor` step of `TensorV2::operator==`, whose body is not among the
given sources) compares shape/format/type metadata. -/
def tensorInfoEq (a b : TensorV2) : Bool :=
  a.dim = b.dim ∧ a.fmt = b.fmt ∧ a.dtype = b.dtype

/-- Modelled from the spec: the backend (`FloatTensor` / `HalfTensor`)
equality operators, not among the given sources, compare element-wise
values. -/
def backendDataEq (a b : TensorV2) : Bool :=
  a.data = b.data

/-- Embedding of `TensorV2::operator==`: first the metadata comparison via the
backing `TensorBase`, then — only on a metadata match — dispatch on the stored
data type to the backend comparison. An `FP16` comparison in a build without
`ENABLE_FP16` throws (the spec's `ConfigurationError`); any other data type
falls through to `return false`. `fp16Enabled` models the `ENABLE_FP16` build
flag. -/
def tensorV2Eq (fp16Enabled : Bool) (a b : TensorV2) : Except NNErr Bool :=
  if tensorInfoEq a b then
    if a.dtype = Tdatatype.FP32 then
      .ok (backendDataEq a b)
    else if a.dtype = Tdatatype.FP16 then
      if fp16Enabled then .ok (backendDataEq a b)
      else .error .ConfigurationError
    else
      .ok false
  else
    .ok false

/-- A `TensorV2` the constructors can actually produce in a build with the
given `ENABLE_FP16` setting: `FP32` always, `FP16` only when the flag is on. -/
def constructible (fp16Enabled : Bool) (t : TensorV2) : Prop :=
  t.dtype = Tdatatype.FP32 ∨ (t.dtype = Tdatatype.FP16 ∧ fp16Enabled = true)

instance (fp16Enabled : Bool) (t : TensorV2) :
    Decidable (constructible fp16Enabled t) := by
  unfold constructible; infer_instance

/-- Exception message of the `FP16`-requested-but-not-compiled branch of the
`TensorV2` constructors. -/
def fp16_disabled_msg : String := "Error: enable-fp16 is not enabled"

/-- Exception message of the unrecognized-data-type branch of the `TensorV2`
constructors. -/
def dtype_incompatible_msg : String :=
  "Error: TensorV2 cannot be constructed because the given d_type is not compatible with itensor. The supported d_types are: FP32, FP16 (if built with ENABLE_FP16)."

/-- Embedding of the `TensorV2(const TensorDim &d, ...)` constructors: all
three share the same dispatch on `d.getDataType()` — `FP32` builds a
`FloatTensor`, `FP16` builds a `HalfTensor` when `ENABLE_FP16` is set and
throws otherwise, and any other tag throws; both throws are
`std::invalid_argument` (the spec's `UnsupportedDataType` family), carrying
the messages modelled above. -/
def constructTensorV2 (fp16Enabled : Bool) (d : TensorDim) (fmt : Tformat)
    (dtype : Tdatatype) (data : List ℤ) : Except (NNErr × String) TensorV2 :=
  if dtype = Tdatatype.FP32 then
    .ok ⟨d, fmt, dtype, data⟩
  else if dtype = Tdatatype.FP16 then
    if fp16Enabled then .ok ⟨d, fmt, dtype, data⟩
    else .error (.UnsupportedDataType, fp16_disabled_msg)
  else
    .error (.UnsupportedDataType, dtype_incompatible_msg)

/-! ## Fully connected layer (`fc_layer.cpp`)

The FC layer works on rank-4 tensors whose two effective axes form a 2D
matrix (height × width under NCHW, width × channel under NHWC, per the
effective-dimension masks `0b0011` / `0b0101` set in `finalize`).  The layer
math is embedded on that matrix view, with exact integer elements. -/

/-- The 2D matrix view of an FC-layer tensor. -/
abbrev Mat (m n : ℕ) := Matrix (Fin m) (Fin n) ℤ

/-- Modelled from the spec: `Tensor::dot` (not among the given sources) is the
standard 2D matrix product over the two effective axes, no transpose in the
default path. -/
def tensorDot {m k n : ℕ} (A : Mat m k) (B : Mat k n) : Mat m n := A * B

/-- Modelled from the spec: `Tensor::dot_deriv_wrt_1` (not among the given
sources) — for `C = A.dot(B)`, the loss derivative with respect to the first
operand `A` is `dC ⬝ Bᵀ`. -/
def dot_deriv_wrt_1 {m k n : ℕ} (B : Mat k n) (dC : Mat m n) : Mat m k :=
  dC * B.transpose

/-- Modelled from the spec: `Tensor::dot_deriv_wrt_2` (not among the given
sources) — for `C = A.dot(B)`, the loss derivative with respect to the second
operand `B` is `Aᵀ ⬝ dC`. -/
def dot_deriv_wrt_2 {m k n : ℕ} (A : Mat m k) (dC : Mat m n) : Mat k n :=
  A.transpose * dC

/-- Modelled from the spec: `Tensor::dot_batched_deriv_wrt_1` (not among the
given sources) — same mathematical meaning as `dot_deriv_wrt_1` on the
effective matrix axes. -/
def dot_batched_deriv_wrt_1 {m k n : ℕ} (B : Mat k n) (dC : Mat m n) :
    Mat m k :=
  dC * B.transpose

/-- Modelled from the spec: `Tensor::sum({0,1,2}, out)` on an incoming
derivative — reduce over every axis except the feature axis. -/
def sumRows {b o : ℕ} (D : Mat b o) : Fin o → ℤ := fun j => ∑ r, D r j

/-- Broadcast bias addition (`hidden_.add_i(bias)`). -/
def addBias {b o : ℕ} (M : Mat b o) (bias : Fin o → ℤ) : Mat b o :=
  Matrix.of fun r j => M r j + bias j

/-- The first-access overwrite-vs-accumulate write discipline used by
`calcGradient`: first access of an optimization step overwrites the stored
gradient, later accesses add to it. -/
def gradWrite {α : Type} [Add α] (first : Bool) (old v : α) : α :=
  if first then v else old + v

/-- The per-layer tensors held by the run context, on their effective matrix
axes: the stored weight and bias, the two LoRA factors, the iteration-lifespan
LoRA scratch tensor `weight_lora`, and the output buffer `hidden_`.
Sizes: `bsz` batch rows, `inF` input features, `rk` LoRA rank, `outF` units. -/
structure FCState (bsz inF rk outF : ℕ) where
  weight : Mat inF outF
  bias : Fin outF → ℤ
  loraA : Mat inF rk
  loraB : Mat rk outF
  loraW : Mat inF outF
  hidden : Mat bsz outF
  deriving DecidableEq

/-- Embedding of `FullyConnectedLayer::forwarding_lora(context, weight)`:
`loraA.dot(loraB, weight_lora)` materialises `weight_lora = loraA ⊗ loraB`
into the scratch tensor, then `weight.add(weight_lora, weight)` adds it, in
place, to whichever weight tensor was passed in.  Returns the new scratch
value and the new value of the passed weight tensor. -/
def forwarding_lora {i r o : ℕ} (loraA : Mat i r) (loraB : Mat r o)
    (weight : Mat i o) : Mat i o × Mat i o :=
  let weight_lora := loraA * loraB
  (weight_lora, weight + weight_lora)

/-- Embedding of the non-quantized branch of
`FullyConnectedLayer::forwarding`: `weight` is the reference returned by
`context.getWeight`, so `forwarding_lora` (when the LoRA rank property is
non-empty, `lora_active`) mutates the stored weight itself; the main multiply
then runs on that tensor, and bias is added unless disabled. -/
def forwarding {bsz i r o : ℕ} (lora_active bias_enabled : Bool)
    (input : Mat bsz i) (s : FCState bsz i r o) : FCState bsz i r o :=
  let lw := if lora_active then forwarding_lora s.loraA s.loraB s.weight
            else (s.loraW, s.weight)
  let h := input * lw.2
  let h := if bias_enabled then addBias h s.bias else h
  { s with loraW := lw.1, weight := lw.2, hidden := h }

/-- Embedding of the quantized (`QINT4`/`QINT8` weight) branch of
`FullyConnectedLayer::forwarding`: a fresh temporary `weight_` receives the
dequantized values (`dequant` models `Tensor::dequantize`, which is not among
the given sources and only writes its destination), LoRA is applied to the
temporary, and the stored weight tensor is never written. -/
def forwardingQuant {bsz i r o : ℕ} (dequant : Mat i o → Mat i o)
    (lora_active bias_enabled : Bool) (input : Mat bsz i)
    (s : FCState bsz i r o) : FCState bsz i r o :=
  let wtmp := dequant s.weight
  let lw := if lora_active then forwarding_lora s.loraA s.loraB wtmp
            else (s.loraW, wtmp)
  let h := input * lw.2
  let h := if bias_enabled then addBias h s.bias else h
  { s with loraW := lw.1, hidden := h }

/-- Embedding of `FullyConnectedLayer::calcDerivative`:
`ret_.dot_deriv_wrt_1(weight, derivative_)` on the weight tensor currently
stored in the context. -/
def calcDerivative {bsz i r o : ℕ} (s : FCState bsz i r o)
    (derivative : Mat bsz o) : Mat bsz i :=
  dot_deriv_wrt_1 s.weight derivative

/-- The gradient tensors of the run context on their effective matrix axes:
base weight and bias gradients, LoRA factor gradients, and the scratch LoRA
weight gradient. -/
structure FCGrads (i r o : ℕ) where
  djdw : Mat i o
  djdb : Fin o → ℤ
  djdla : Mat i r
  djdlb : Mat r o
  djdlw : Mat i o
  deriving DecidableEq

/-- Embedding of `FullyConnectedLayer::calcGradient`.  When the LoRA rank
property is empty (`lora_active = false`) the baseline branch writes the bias
gradient (unless bias is disabled) and the weight gradient, each under its own
first-access flag; otherwise the LoRA branch writes the scratch LoRA weight
gradient, then `loraB`'s gradient from `loraA` and the (updated) scratch
gradient, then `loraA`'s gradient from the (updated) scratch gradient and
`loraB`, each under its own first-access flag. -/
def calcGradient {bsz i r o : ℕ} (lora_active bias_enabled : Bool)
    (firstW firstB firstLA firstLB firstLW : Bool)
    (input : Mat bsz i) (derivative : Mat bsz o)
    (loraA : Mat i r) (loraB : Mat r o)
    (g : FCGrads i r o) : FCGrads i r o :=
  if lora_active then
    let djdlw := gradWrite firstLW g.djdlw (dot_deriv_wrt_2 input derivative)
    let djdlb := gradWrite firstLB g.djdlb (dot_deriv_wrt_2 loraA djdlw)
    let djdla := gradWrite firstLA g.djdla (dot_batched_deriv_wrt_1 loraB djdlw)
    { g with djdlw := djdlw, djdlb := djdlb, djdla := djdla }
  else
    let djdb := if bias_enabled then gradWrite firstB g.djdb (sumRows derivative)
                else g.djdb
    let djdw := gradWrite firstW g.djdw (dot_deriv_wrt_2 input derivative)
    { g with djdb := djdb, djdw := djdw }

/-- `unsigned int` subtraction `a - b`, modulo `2^32`, for `a, b < 2^32`. -/
def usub32 (a b : ℕ) : ℕ := (2 ^ 32 + a - b) % 2 ^ 32

/-- The body of `incremental_forwarding` after the step width `k` has been
fixed: bind height-`k` shared views of input and output at offset 0 with reset
strides, multiply into the output view, and add bias (unless disabled) to the
view.  Rows at or beyond `k` of the underlying output buffer are untouched. -/
def stepCompute {H i o : ℕ} (k : ℕ) (bias_enabled : Bool) (input : Mat H i)
    (weight : Mat i o) (bias : Fin o → ℤ) (hidden : Mat H o) : Mat H o :=
  Matrix.of fun r j =>
    if (r : ℕ) < k then
      (∑ t, input r t * weight t j) + (if bias_enabled then bias j else 0)
    else hidden r j

/-- Embedding of `FullyConnectedLayer::incremental_forwarding(from, to)`:
with nonzero `from`, a step width `to - from` (machine subtraction) other
than 1 throws `std::invalid_argument` ("incremental step size is not 1"), and
otherwise the call is normalized to `from = 0, to = 1` before the step views
are bound; with `from = 0` the step height is `to`.  Returns the new contents
of the output buffer. -/
def incremental_forwarding {H i o : ℕ} (frm toN : ℕ) (bias_enabled : Bool)
    (input : Mat H i) (weight : Mat i o) (bias : Fin o → ℤ)
    (hidden : Mat H o) : Except NNErr (Mat H o) :=
  if frm ≠ 0 then
    if usub32 toN frm ≠ 1 then .error .InvalidArgument
    else .ok (stepCompute 1 bias_enabled input weight bias hidden)
  else .ok (stepCompute (usub32 toN 0) bias_enabled input weight bias hidden)

/-! ### Weight dimensions requested by `FullyConnectedLayer::finalize` -/

/-- `weight_dim` as requested by `finalize`:
`(1, is_nchw ? 1 : unit, is_nchw ? in_w : 1, is_nchw ? unit : in_c)`. -/
def fc_weight_dim (is_nchw : Bool) (unit in_w in_c : ℕ) : TensorDim :=
  ⟨1, if is_nchw then 1 else unit, if is_nchw then in_w else 1,
   if is_nchw then unit else in_c⟩

/-- `loraA_dim` as requested by `finalize`:
`(1, is_nchw ? 1 : lora_rank, is_nchw ? in_w : 1, is_nchw ? lora_rank : in_c)`. -/
def fc_loraA_dim (is_nchw : Bool) (lora_rank in_w in_c : ℕ) : TensorDim :=
  ⟨1, if is_nchw then 1 else lora_rank, if is_nchw then in_w else 1,
   if is_nchw then lora_rank else in_c⟩

/-- `loraB_dim` as requested by `finalize`:
`(1, is_nchw ? 1 : unit, is_nchw ? lora_rank : 1, is_nchw ? unit : in_c)`.
Note the width under channel-last is `in_dim.channel()`, not `lora_rank`. -/
def fc_loraB_dim (is_nchw : Bool) (unit lora_rank in_c : ℕ) : TensorDim :=
  ⟨1, if is_nchw then 1 else unit, if is_nchw then lora_rank else 1,
   if is_nchw then unit else in_c⟩

/-- Number of rows of the effective 2D matrix of an FC tensor: height under
channel-first, width under channel-last (effective-dimension masks `0b0011`
and `0b0101` in `finalize`; under NHWC, `input.dot(weight)` maps the input
channel axis to the weight's width axis and produces the weight's channel
axis, so the weight matrix is width × channel). -/
def matRowsOf (is_nchw : Bool) (d : TensorDim) : ℕ :=
  if is_nchw then d.h else d.w

/-- Number of columns of the effective 2D matrix of an FC tensor: width under
channel-first, channel under channel-last. -/
def matColsOf (is_nchw : Bool) (d : TensorDim) : ℕ :=
  if is_nchw then d.w else d.c

/-- Matrix-product shape compatibility on the effective matrix axes:
`dA ⊗ dB` is well formed and has exactly the shape of `dW`. -/
def matProdShapeCompat (is_nchw : Bool) (dA dB dW : TensorDim) : Prop :=
  matColsOf is_nchw dA = matRowsOf is_nchw dB ∧
  matRowsOf is_nchw dA = matRowsOf is_nchw dW ∧
  matColsOf is_nchw dB = matColsOf is_nchw dW

instance (is_nchw : Bool) (dA dB dW : TensorDim) :
    Decidable (matProdShapeCompat is_nchw dA dB dW) := by
  unfold matProdShapeCompat; infer_instance

/-! ## Theorems -/

theorem tensorInfoEq_symm (a b : TensorV2) :
    tensorInfoEq a b = tensorInfoEq b a := by
  simp only [tensorInfoEq]
  exact decide_eq_decide.mpr
    ⟨fun ⟨h1, h2, h3⟩ => ⟨h1.symm, h2.symm, h3.symm⟩,
     fun ⟨h1, h2, h3⟩ => ⟨h1.symm, h2.symm, h3.symm⟩⟩

theorem backendDataEq_symm (a b : TensorV2) :
    backendDataEq a b = backendDataEq b a := by
  simp only [backendDataEq]
  exact decide_eq_decide.mpr ⟨Eq.symm, Eq.symm⟩

/-- Claim C7 counterexample: under channel-last format the code's adjacency
relation makes the pair (1, 2) discontinuous and the pair (0, 2) continuous,
refuting the claimed pair set {0→3, 3→1, 1→2}. -/
theorem checkContinuous_nhwc_pairs_counterexample :
    checkContinuous Tformat.NHWC 1 2 = .ok false ∧
    checkContinuous Tformat.NHWC 0 3 = .ok false ∧
    checkContinuous Tformat.NHWC 0 2 = .ok true := by
  exact ⟨by decide, by decide, by decide⟩

/-- Claim C7, amended: for axis arguments in [0,3], `checkContinuous` under
channel-first format is true exactly when `np2 = np1 + 1`, and under
channel-last format exactly for the pairs (0,2), (2,3), (3,1) — those with
`order[np2] = order[np1] + 1` for the permuted order [0,3,1,2]; in-range
arguments never throw, and any axis argument outside [0,3] throws the
`IndexOutOfRange` family error. -/
theorem checkContinuous_characterization (np1 np2 : ℕ) :
    (np1 ≤ 3 → np2 ≤ 3 →
      (checkContinuous Tformat.NCHW np1 np2 = .ok true ↔ np1 + 1 = np2) ∧
      (checkContinuous Tformat.NHWC np1 np2 = .ok true ↔
        ((np1, np2) = (0, 2) ∨ (np1, np2) = (2, 3) ∨ (np1, np2) = (3, 1))) ∧
      (∀ fmt, checkContinuous fmt np1 np2 ≠ .error NNErr.IndexOutOfRange)) ∧
    (3 < np1 ∨ 3 < np2 →
      ∀ fmt, checkContinuous fmt np1 np2 = .error NNErr.IndexOutOfRange) := by
  constructor
  · intro h1 h2
    interval_cases np1 <;> interval_cases np2 <;>
      exact ⟨by decide, by decide, by intro fmt; cases fmt <;> decide⟩
  · intro h fmt
    unfold checkContinuous
    rw [if_pos h]

/-- Claim C7 witness: the amended characterization applied at the concrete
pairs (0, 2) in range and (5, 0) out of range. -/
theorem checkContinuous_characterization_witness :
    checkContinuous Tformat.NHWC 0 2 = .ok true ∧
    checkContinuous Tformat.NCHW 5 0 = .error NNErr.IndexOutOfRange :=
  ⟨(((checkContinuous_characterization 0 2).1 (by decide) (by decide)).2.1).mpr
      (Or.inl rfl),
   (checkContinuous_characterization 5 0).2 (Or.inl (by decide)) Tformat.NCHW⟩

/-- Claim C8: `TensorV2::operator==` is reflexive on every tensor the
constructors can produce, symmetric, and returns false whenever the two data
types differ, even when the element values coincide (metadata is compared
first; values only on a metadata match). -/
theorem tensorV2Eq_refl_symm_dtype (build : Bool) (a b : TensorV2) :
    (constructible build a → tensorV2Eq build a a = .ok true) ∧
    tensorV2Eq build a b = tensorV2Eq build b a ∧
    (a.dtype ≠ b.dtype → tensorV2Eq build a b = .ok false) ∧
    (tensorInfoEq a b = false → tensorV2Eq build a b = .ok false) ∧
    (tensorInfoEq a b = true → a.dtype = Tdatatype.FP32 →
      tensorV2Eq build a b = .ok (backendDataEq a b)) := by
  refine ⟨?_, ?_, ?_, ?_, ?_⟩
  · rintro (h | ⟨h, hb⟩)
    · simp [tensorV2Eq, tensorInfoEq, backendDataEq, h]
    · simp [tensorV2Eq, tensorInfoEq, backendDataEq, h, hb]
  · by_cases hinfo : tensorInfoEq a b = true
    · have hdt : a.dtype = b.dtype := by
        simp [tensorInfoEq] at hinfo
        exact hinfo.2.2
      have hinfo' : tensorInfoEq b a = true := by
        rw [← tensorInfoEq_symm]; exact hinfo
      rw [tensorV2Eq, tensorV2Eq, if_pos hinfo, if_pos hinfo', hdt,
        backendDataEq_symm]
    · have hinfo' : ¬ tensorInfoEq b a = true := by
        rw [← tensorInfoEq_symm]; exact hinfo
      rw [tensorV2Eq, tensorV2Eq, if_neg hinfo, if_neg hinfo']
  · intro hne
    have hinfo : ¬ tensorInfoEq a b = true := by
      simp [tensorInfoEq]
      intro _ _
      exact hne
    rw [tensorV2Eq, if_neg hinfo]
  · intro hinfo
    rw [tensorV2Eq, if_neg (by simp [hinfo])]
  · intro hinfo hdt
    rw [tensorV2Eq, if_pos hinfo, if_pos hdt]

/-- Claim C8 witness: the theorem applied to a concrete FP32 tensor and a
concrete FP16 tensor holding the same element values. -/
theorem tensorV2Eq_refl_symm_dtype_witness :
    tensorV2Eq true ⟨⟨1, 1, 1, 1⟩, .NCHW, .FP32, [0]⟩
        ⟨⟨1, 1, 1, 1⟩, .NCHW, .FP32, [0]⟩ = .ok true ∧
    tensorV2Eq true ⟨⟨1, 1, 1, 1⟩, .NCHW, .FP32, [0]⟩
        ⟨⟨1, 1, 1, 1⟩, .NCHW, .FP16, [0]⟩ = .ok false :=
  ⟨(tensorV2Eq_refl_symm_dtype true ⟨⟨1, 1, 1, 1⟩, .NCHW, .FP32, [0]⟩
      ⟨⟨1, 1, 1, 1⟩, .NCHW, .FP16, [0]⟩).1 (by decide),
   (tensorV2Eq_refl_symm_dtype true ⟨⟨1, 1, 1, 1⟩, .NCHW, .FP32, [0]⟩
      ⟨⟨1, 1, 1, 1⟩, .NCHW, .FP16, [0]⟩).2.2.1 (by decide)⟩

/-- Claim C9: constructing a tensor with a data type tag that is neither of
the two supported precisions fails with the `UnsupportedDataType` family
error and the data-type-unrecognized message; requesting the 16-bit precision
in a build that excludes it fails with the distinct
not-compiled-with-this-precision message. -/
theorem constructTensorV2_unsupported_dtype (build : Bool) (d : TensorDim)
    (fmt : Tformat) (dtype : Tdatatype) (data : List ℤ) :
    (dtype ≠ Tdatatype.FP32 → dtype ≠ Tdatatype.FP16 →
      constructTensorV2 build d fmt dtype data =
        .error (NNErr.UnsupportedDataType, dtype_incompatible_msg)) ∧
    (dtype = Tdatatype.FP16 → build = false →
      constructTensorV2 build d fmt dtype data =
        .error (NNErr.UnsupportedDataType, fp16_disabled_msg)) ∧
    fp16_disabled_msg ≠ dtype_incompatible_msg := by
  refine ⟨?_, ?_, by decide⟩
  · intro h1 h2
    simp [constructTensorV2, h1, h2]
  · intro h hb
    simp [constructTensorV2, h, hb]

/-- Claim C9 witness: the theorem applied to the `QINT4` tag and to `FP16` in
a build without `ENABLE_FP16`. -/
theorem constructTensorV2_unsupported_dtype_witness :
    constructTensorV2 true ⟨1, 1, 1, 1⟩ .NCHW .QINT4 [] =
      .error (NNErr.UnsupportedDataType, dtype_incompatible_msg) ∧
    constructTensorV2 false ⟨1, 1, 1, 1⟩ .NCHW .FP16 [] =
      .error (NNErr.UnsupportedDataType, fp16_disabled_msg) :=
  ⟨(constructTensorV2_unsupported_dtype true ⟨1, 1, 1, 1⟩ .NCHW .QINT4 []).1
      (by decide) (by decide),
   (constructTensorV2_unsupported_dtype false ⟨1, 1, 1, 1⟩ .NCHW .FP16 []).2.1
      rfl rfl⟩

/-- Claim C1 counterexample: on the non-quantized path with LoRA active,
`forwarding_lora` receives the reference to the stored weight tensor itself,
so the in-place add persists: with stored weight 0, `loraA = loraB = [1]`, the
stored weight after `forwarding` is 1, not its value before the call. -/
theorem forwarding_nonquant_persists_lora_counterexample :
    (forwarding true true (!![1] : Mat 1 1)
        (⟨!![0], fun _ => 0, !![1], !![1], !![0], !![0]⟩ :
          FCState 1 1 1 1)).weight ≠ !![0] := by
  decide

/-- Claim C1, amended: each forward call with LoRA active computes
`loraW = loraA ⊗ loraB` into the scratch tensor and adds `loraW` to the weight
tensor it was given before the main matrix multiply; after `forwarding`
returns, the stored weight tensor is unchanged on the quantized path (only the
fresh dequantized temporary absorbs `loraW`), while on the non-quantized path
the in-place add persists: the stored weight tensor ends as its old value plus
`loraW`. -/
theorem forwarding_lora_weight_effect {bsz i r o : ℕ} (bias_enabled : Bool)
    (dequant : Mat i o → Mat i o) (input : Mat bsz i)
    (s : FCState bsz i r o) :
    (forwardingQuant dequant true bias_enabled input s).weight = s.weight ∧
    (forwardingQuant dequant true bias_enabled input s).loraW =
      s.loraA * s.loraB ∧
    (forwardingQuant dequant true bias_enabled input s).hidden =
      (if bias_enabled then
        addBias (input * (dequant s.weight + s.loraA * s.loraB)) s.bias
       else input * (dequant s.weight + s.loraA * s.loraB)) ∧
    (forwarding true bias_enabled input s).weight =
      s.weight + s.loraA * s.loraB ∧
    (forwarding true bias_enabled input s).loraW = s.loraA * s.loraB ∧
    (forwarding true bias_enabled input s).hidden =
      (if bias_enabled then
        addBias (input * (s.weight + s.loraA * s.loraB)) s.bias
       else input * (s.weight + s.loraA * s.loraB)) :=
  ⟨rfl, rfl, rfl, rfl, rfl, rfl⟩

/-- Modelled from the spec: the baseline (non-LoRA) forward formula,
`hidden = input ⊗ W`, plus bias unless disabled. -/
def baselineForward {bsz i o : ℕ} (bias_enabled : Bool) (input : Mat bsz i)
    (W : Mat i o) (bias : Fin o → ℤ) : Mat bsz o :=
  if bias_enabled then addBias (input * W) bias else input * W

/-- Claim C3: with LoRA active, the output of `forwarding` (non-quantized
path) equals the baseline forward formula with `W` replaced by
`W + loraA ⊗ loraB`; with the LoRA rank property empty (rank 0), the LoRA path
is skipped — stored weight and scratch are untouched — and the output equals
the baseline formula on `W` exactly. -/
theorem forwarding_matches_baseline {bsz i r o : ℕ} (bias_enabled : Bool)
    (input : Mat bsz i) (s : FCState bsz i r o) :
    (forwarding true bias_enabled input s).hidden =
      baselineForward bias_enabled input (s.weight + s.loraA * s.loraB)
        s.bias ∧
    (forwarding false bias_enabled input s).hidden =
      baselineForward bias_enabled input s.weight s.bias ∧
    (forwarding false bias_enabled input s).weight = s.weight ∧
    (forwarding false bias_enabled input s).loraW = s.loraW :=
  ⟨rfl, rfl, rfl, rfl⟩

/-- Claim C4: with nonzero `from`, a step width `to - from` (unsigned machine
subtraction) other than exactly 1 makes `incremental_forwarding` fail with the
`InvalidArgument` family error, and a step width of exactly 1 makes the call
operate on the single-row (height 1) views at offset 0 of the step buffers. -/
theorem incremental_forwarding_step_contract {H i o : ℕ} (frm toN : ℕ)
    (bias_enabled : Bool) (input : Mat H i) (weight : Mat i o)
    (bias : Fin o → ℤ) (hidden : Mat H o) (hfrm : frm ≠ 0) :
    (usub32 toN frm ≠ 1 →
      incremental_forwarding frm toN bias_enabled input weight bias hidden =
        .error NNErr.InvalidArgument) ∧
    (usub32 toN frm = 1 →
      incremental_forwarding frm toN bias_enabled input weight bias hidden =
        .ok (stepCompute 1 bias_enabled input weight bias hidden)) := by
  constructor
  · intro h
    rw [incremental_forwarding, if_pos hfrm, if_pos h]
  · intro h
    rw [incremental_forwarding, if_pos hfrm, if_neg (by simp [h])]

/-- Claim C4 witness: the contract applied at `from = 5, to = 7` (failure) and
at `from = 5, to = 6` (normalized single-row computation). -/
theorem incremental_forwarding_step_contract_witness :
    incremental_forwarding 5 7 true (!![1] : Mat 1 1) !![1] (fun _ => 1)
        !![0] = .error NNErr.InvalidArgument ∧
    incremental_forwarding 5 6 true (!![1] : Mat 1 1) !![1] (fun _ => 1)
        !![0] = .ok (stepCompute 1 true !![1] !![1] (fun _ => 1) !![0]) :=
  ⟨(incremental_forwarding_step_contract 5 7 true !![1] !![1] (fun _ => 1)
      !![0] (by decide)).1 (by decide),
   (incremental_forwarding_step_contract 5 6 true !![1] !![1] (fun _ => 1)
      !![0] (by decide)).2 (by decide)⟩

/-- Claim C5 counterexample: `calcDerivative` reads the weight tensor
currently stored in the context; after a `forwarding` call with LoRA active on
the non-quantized path, that tensor already holds `W + loraW`, so the
propagated input gradient differs from the one computed from the base weight:
with base weight 0, `loraA = loraB = [1]` and incoming derivative `[1]`, the
result is 1 while the base-weight result is 0. -/
theorem calcDerivative_composed_weight_counterexample :
    calcDerivative
        (forwarding true true (!![1] : Mat 1 1)
          (⟨!![0], fun _ => 0, !![1], !![1], !![0], !![0]⟩ :
            FCState 1 1 1 1)) !![1] ≠
      dot_deriv_wrt_1 (!![0] : Mat 1 1) !![1] := by
  decide

/-- Claim C5, amended: `calcDerivative` applies the
derivative-with-respect-to-the-first-matrix-multiply-operand primitive to the
weight tensor currently stored in the context and the incoming
output-gradient.  Before any forward call that is the base weight `W`, but
after a `forwarding` call with LoRA active on the non-quantized path the
stored tensor equals `W + loraA ⊗ loraB`, so the derivative is taken against
the LoRA-composed weight (the quantized path leaves the stored weight at its
base value). -/
theorem calcDerivative_stored_weight {bsz i r o : ℕ} (bias_enabled : Bool)
    (dequant : Mat i o → Mat i o) (input : Mat bsz i)
    (s : FCState bsz i r o) (derivative : Mat bsz o) :
    calcDerivative s derivative = dot_deriv_wrt_1 s.weight derivative ∧
    calcDerivative (forwarding true bias_enabled input s) derivative =
      dot_deriv_wrt_1 (s.weight + s.loraA * s.loraB) derivative ∧
    calcDerivative (forwardingQuant dequant true bias_enabled input s)
        derivative = dot_deriv_wrt_1 s.weight derivative :=
  ⟨rfl, rfl, rfl⟩

/-- Claim C2: on the baseline (non-LoRA) path with bias enabled, calling
`calcGradient` once with the first-access flags set leaves the weight and bias
gradients at exactly the single-pass values (regardless of the initial
gradient state — no doubling), and calling it a second time in the same step
with the flags clear leaves them at the sum of two single-pass results. -/
theorem calcGradient_accumulation {bsz i r o : ℕ}
    (a1 a2 a3 b1 b2 b3 : Bool) (input : Mat bsz i) (derivative : Mat bsz o)
    (loraA : Mat i r) (loraB : Mat r o) (g : FCGrads i r o) :
    (calcGradient false true true true a1 a2 a3 input derivative loraA loraB
        g).djdw = dot_deriv_wrt_2 input derivative ∧
    (calcGradient false true true true a1 a2 a3 input derivative loraA loraB
        g).djdb = sumRows derivative ∧
    (calcGradient false true false false b1 b2 b3 input derivative loraA loraB
        (calcGradient false true true true a1 a2 a3 input derivative loraA
          loraB g)).djdw =
      dot_deriv_wrt_2 input derivative + dot_deriv_wrt_2 input derivative ∧
    (calcGradient false true false false b1 b2 b3 input derivative loraA loraB
        (calcGradient false true true true a1 a2 a3 input derivative loraA
          loraB g)).djdb = sumRows derivative + sumRows derivative :=
  ⟨rfl, rfl, rfl, rfl⟩

/-- Claim C6: the matrix-product shape invariant `shape(loraA ⊗ loraB) =
shape(weight)` asserted by the `finalize` comment holds for every unit, input
shape and rank under channel-first format, but fails under channel-last
format whenever `in_dim.channel() ≠ lora_rank` — e.g. at `unit = 3`,
`in_dim.channel() = 4`, `lora_rank = 2`, where `loraB_dim`'s width is 4
instead of the rank 2 required for the product to be well formed. -/
theorem fc_lora_dims_shape_compat_bug :
    (∀ unit in_w in_c lora_rank : ℕ,
      matProdShapeCompat true (fc_loraA_dim true lora_rank in_w in_c)
        (fc_loraB_dim true unit lora_rank in_c)
        (fc_weight_dim true unit in_w in_c)) ∧
    ¬ matProdShapeCompat false (fc_loraA_dim false 2 5 4)
        (fc_loraB_dim false 3 2 4) (fc_weight_dim false 3 5 4) := by
  constructor
  · intro unit in_w in_c lora_rank
    exact ⟨rfl, rfl, rfl⟩
  · decide

/-- Claim C10: with LoRA active, `calcGradient` writes only the `loraA`,
`loraB` and scratch LoRA-weight gradient tensors — the base weight gradient
and the bias gradient are untouched for every initial gradient state, every
combination of first-access flags, and regardless of bias being enabled. -/
theorem calcGradient_lora_frame {bsz i r o : ℕ}
    (bias_enabled firstW firstB firstLA firstLB firstLW : Bool)
    (input : Mat bsz i) (derivative : Mat bsz o)
    (loraA : Mat i r) (loraB : Mat r o) (g : FCGrads i r o) :
    (calcGradient true bias_enabled firstW firstB firstLA firstLB firstLW
        input derivative loraA loraB g).djdw = g.djdw ∧
    (calcGradient true bias_enabled firstW firstB firstLA firstLB firstLW
        input derivative loraA loraB g).djdb = g.djdb ∧
    (calcGradient true bias_enabled firstW firstB firstLA firstLB firstLW
        input derivative loraA loraB g).djdlw =
      gradWrite firstLW g.djdlw (dot_deriv_wrt_2 input derivative) ∧
    (calcGradient true bias_enabled firstW firstB firstLA firstLB firstLW
        input derivative loraA loraB g).djdlb =
      gradWrite firstLB g.djdlb (dot_deriv_wrt_2 loraA
        (gradWrite firstLW g.djdlw (dot_deriv_wrt_2 input derivative))) ∧
    (calcGradient true bias_enabled firstW firstB firstLA firstLB firstLW
        input derivative loraA loraB g).djdla =
      gradWrite firstLA g.djdla (dot_batched_deriv_wrt_1 loraB
        (gradWrite firstLW g.djdlw (dot_deriv_wrt_2 input derivative))) :=
  ⟨rfl, rfl, rfl, rfl, rfl⟩

/-- Claim C6 witness: the channel-first half of the shape theorem applied at
`unit = 3`, `in_dim.width() = 5`, `in_dim.channel() = 4`, `lora_rank = 2`. -/
theorem fc_lora_dims_shape_compat_bug_witness :
    matProdShapeCompat true (fc_loraA_dim true 2 5 4)
      (fc_loraB_dim true 3 2 4) (fc_weight_dim true 3 5 4) :=
  fc_lora_dims_shape_compat_bug.1 3 5 4 2
